import Mathlib

/-!
Shallow embedding of `src/Backend/app.py` (InGrowwth Innovations backend):
a Flask app with two endpoints, `POST /submit_contact` and
`POST /submit_application`, a JSON-array record store
(`save_application_data`), and two best-effort mail senders
(`send_contact_reply_email`, `send_career_reply_email`).

External effects are modelled explicitly:
- the store file `applications.json` is a `StoreFile` value threaded through
  `AppState`;
- the resumes directory is the list `AppState.resumes` of paths of files
  written so far;
- `uuid.uuid4()` is a fresh-name supply: `AppState.uuidCounter` is bumped on
  every draw, so successive draws are distinct (the property uuid4 is relied
  on for);
- `datetime.now().isoformat()` is an input string `date`;
- fallible I/O (SMTP send, store-file write) is an explicit boolean oracle
  per call; a raised-and-caught exception corresponds to the oracle being
  `false`.
-/

namespace InGrowwth

/-- Python `\s` on ASCII input: space, tab, newline, carriage return,
form feed, vertical tab.  (Python also counts non-ASCII Unicode whitespace;
all inputs considered here are ASCII.) -/
def pySpace (c : Char) : Bool :=
  c = ' ' || c = '\t' || c = '\n' || c = '\r' || c = '\x0c' || c = '\x0b'

/-- Python `str.strip()` (no argument): drop leading and trailing whitespace. -/
def pyStrip (s : String) : String :=
  ⟨((s.data.dropWhile pySpace).reverse.dropWhile pySpace).reverse⟩

/-- Python `\d` on ASCII input: a decimal digit.  (Python `\d` also matches
non-ASCII Unicode decimal digits; all inputs considered here are ASCII.) -/
def pyDigit (c : Char) : Bool := c.isDigit

/-- In Python `re`, outside MULTILINE mode, `$` matches at the end of the
string and also just before a newline that is the last character of the
string.  This helper returns the string with a single trailing newline
removed, or `none` when the last character is not a newline. -/
def stripTrailingNewline (cs : List Char) : Option (List Char) :=
  match cs.getLast? with
  | some c => if c = '\n' then some cs.dropLast else none
  | none => none

/-- Character class `[6-9]`. -/
def isSixToNine (c : Char) : Bool := decide ('6' ≤ c) && decide (c ≤ '9')

/-- The body `[6-9]\d{9}` of the phone pattern matched against a whole
character list: one character in `[6-9]` followed by exactly nine digits. -/
def phoneCore : List Char → Bool
  | c :: rest => isSixToNine c && rest.length == 9 && rest.all pyDigit
  | [] => false

/-- Python `re.match(r'^[6-9]\d{9}$', s)` as a Boolean: the body matches the
whole string, or the whole string minus a single trailing newline
(`$` semantics, see `stripTrailingNewline`). -/
def phoneRegexMatch (s : String) : Bool :=
  phoneCore s.data ||
    (match stripTrailingNewline s.data with
     | some t => phoneCore t
     | none => false)

/-- Character class `[^\s@]`. -/
def emailChar (c : Char) : Bool := !(pySpace c) && c != '@'

/-- Looks for a literal `.` inside `r` splitting it as `b ++ "." ++ c` with
`b` nonempty (`[^\s@]+` before the dot) and `c` of length at least two
(`[^\s@]{2,}` after the dot): a dot at index `i` with `1 ≤ i` and
`i + 3 ≤ r.length`. -/
def hasInnerDot (r : List Char) : Bool :=
  (List.range r.length).any fun i =>
    (r.get? i == some '.') && decide (1 ≤ i) && decide (i + 3 ≤ r.length)

/-- The body `[^\s@]+@[^\s@]+\.[^\s@]{2,}` of the email pattern matched
against a whole character list.  Since `[^\s@]` excludes `@`, the first `+`
run is exactly the prefix before the first `@`; everything after that `@`
must be `[^\s@]` characters (`.` itself is such a character) containing a
dot with at least one character before it and two after it. -/
def emailCore (cs : List Char) : Bool :=
  let a := cs.takeWhile (fun c => c != '@')
  match cs.dropWhile (fun c => c != '@') with
  | '@' :: r => !(a.isEmpty) && a.all emailChar && r.all emailChar && hasInnerDot r
  | _ => false

/-- Python `re.match(r'^[^\s@]+@[^\s@]+\.[^\s@]{2,}$', s)` as a Boolean,
with the same `$` trailing-newline allowance as `phoneRegexMatch`. -/
def emailRegexMatch (s : String) : Bool :=
  emailCore s.data ||
    (match stripTrailingNewline s.data with
     | some t => emailCore t
     | none => false)

/-- An HTTP JSON response as shaped by the two handlers: status code plus the
`success` flag and `message` of the JSON body. -/
structure HttpResponse where
  status : Nat
  success : Bool
  message : String
deriving DecidableEq

/-- The JSON body of a contact request: each field either present with a
string value or absent (`data.get(...)` returning `None`). -/
structure ContactPayload where
  name : Option String
  email : Option String
  subject : Option String
  message : Option String
deriving DecidableEq

/-- Python truthiness of `data.get(field)` for a JSON string field: `None`
and the empty string are falsy, every other string is truthy.  Note there is
no trimming here: `" "` is truthy. -/
def truthy : Option String → Bool
  | none => false
  | some s => s != ""

/-- Model of `send_contact_reply_email(recipient, name, subject)`: builds a
fixed plain-text message and attempts one `mail.send`, returning `True` on
success and `False` when the send raises (the exception is caught and
logged).  The send outcome is the oracle `sendOk`. -/
def send_contact_reply_email (recipient name subject : String) (sendOk : Bool) : Bool :=
  sendOk

/-- Model of the `POST /submit_contact` handler `submit_contact`.

Inputs beyond the payload: `receiverEmail` is `os.getenv('RECEIVER_EMAIL')`
(company notification is skipped when it is `none`), `companySendOk` is the
outcome of the company-notification `mail.send` (its failure is caught and
only logged), `clientSendOk` is the outcome oracle passed to
`send_contact_reply_email`.

Validation is `if not all([name, email, subject, message])`: Python
truthiness of the four fields, with no trimming and no email-format check. -/
def submit_contact (p : ContactPayload) (receiverEmail : Option String)
    (companySendOk clientSendOk : Bool) : HttpResponse :=
  if !(truthy p.name && truthy p.email && truthy p.subject && truthy p.message) then
    ⟨400, false, "All required fields (Name, Email, Subject, Message) are missing."⟩
  else
    let client_email_sent :=
      send_contact_reply_email (p.email.getD "") (p.name.getD "") (p.subject.getD "") clientSendOk
    let response_message :=
      if client_email_sent then
        "Your inquiry has been submitted successfully!" ++
          " You'll receive a confirmation email shortly."
      else
        "Your inquiry has been submitted successfully!" ++
          " There was an issue sending a confirmation email, but we received your message and will contact you soon."
    ⟨200, true, response_message⟩

/-- State of the logo file `assets/images/company_logo.png` as probed by
`os.path.exists` and `os.path.getsize`: missing, present but zero-byte, or
present with contents. -/
inductive LogoFile where
  | missing : LogoFile
  | empty : LogoFile
  | content : String → LogoFile
deriving DecidableEq

/-- The career confirmation email as composed by `send_career_reply_email`:
recipient, subject line, HTML body after placeholder substitution, and
whether the inline logo was attached. -/
structure CareerEmail where
  recipient : String
  subjectLine : String
  html : String
  hasLogoAttachment : Bool
deriving DecidableEq

/-- Placeholder substitution performed on the template by
`send_career_reply_email`: three `str.replace` calls substituting
`{first_name}`, `{last_name}`, `{role_name}` verbatim. -/
def composeCareerHtml (tmpl first_name last_name role_name : String) : String :=
  ((tmpl.replace "{first_name}" first_name).replace "{last_name}" last_name).replace
    "{role_name}" role_name

/-- The logo-presence probe of `send_career_reply_email`:
`os.path.exists(logo_path) and os.path.getsize(logo_path) != 0`. -/
def logoPresent : LogoFile → Bool
  | .content _ => true
  | _ => false

/-- Model of `send_career_reply_email(recipient, first_name, last_name,
role_name)`.  The `Message` construction before the `try` is pure; every
fallible operation (template read, logo read, `mail.send`) is inside the
`try`, whose `except` logs and returns `False`, so the function is total and
returns a Boolean.

`template` is the contents of `templates/reply_email.html`, `none` when the
read raises; `logo` is the state of the logo file; `sendOk` is the outcome
of the one `mail.send` that is executed.  The second component is the email
that was actually sent (`none` when nothing was sent): when the logo is
missing or zero-byte the email is sent without any attachment and the call
still returns `True` if the send succeeds. -/
def send_career_reply_email (recipient first_name last_name role_name : String)
    (template : Option String) (logo : LogoFile) (sendOk : Bool) :
    Bool × Option CareerEmail :=
  match template with
  | none => (false, none)
  | some tmpl =>
    let html_body := composeCareerHtml tmpl first_name last_name role_name
    if sendOk then
      (true, some ⟨recipient,
        "Application Received for " ++ role_name ++ " - InGrowwth Innovations!",
        html_body, logoPresent logo⟩)
    else
      (false, none)

/-- A persisted `ApplicationRecord` as built by `submit_application`.
`id` is the value of the second `uuid.uuid4()` draw, modelled as the token
drawn from the fresh-name supply. -/
structure Record where
  id : Nat
  date : String
  firstName : String
  lastName : String
  email : String
  phone : String
  workExp : String
  applyingFor : String
  github : String
  linkedin : String
  intro : Option String
  resume_path : String
deriving DecidableEq

/-- State of the store file `applications.json` as probed by
`save_application_data`: missing (`os.path.exists` false), zero-byte
(`os.path.getsize == 0`), a JSON array of records, or unreadable/unparseable
contents (`json.load` raises). -/
inductive StoreFile where
  | missing : StoreFile
  | empty : StoreFile
  | contents : List Record → StoreFile
  | corrupt : StoreFile
deriving DecidableEq

/-- The records a store-file state holds once deserialized (the early part of
`save_application_data`): a missing or zero-byte file deserializes to `[]`;
a corrupt file fails to deserialize. -/
def loadApplications : StoreFile → Option (List Record)
  | .missing => some []
  | .empty => some []
  | .contents rs => some rs
  | .corrupt => none

/-- The records a store-file state holds, with a corrupt file holding none. -/
def recordsOf (s : StoreFile) : List Record :=
  (loadApplications s).getD []

/-- Model of `save_application_data(data)`: read the current array (missing
or zero-byte file means `[]`; a corrupt file makes `json.load` raise, which
the `except` turns into `return False` with the file untouched), append
`data`, and write the whole array back.  `writeOk` is the outcome oracle of
the write; a failed write is modelled as leaving the file unchanged and
returning `False` via the same `except`.  Returns the Python return value
and the resulting store-file state. -/
def save_application_data (store : StoreFile) (writeOk : Bool) (data : Record) :
    Bool × StoreFile :=
  match loadApplications store with
  | none => (false, store)
  | some applications =>
    if writeOk then (true, .contents (applications ++ [data]))
    else (false, store)

/-- The multipart form of an application request: `request.form.to_dict()`
fields (each present or absent) and the uploaded `resume` file, modelled by
its client-supplied filename (`none` when no file is attached). -/
structure AppForm where
  firstName : Option String
  lastName : Option String
  email : Option String
  phone : Option String
  workExp : Option String
  applyingFor : Option String
  github : Option String
  linkedin : Option String
  intro : Option String
  resume : Option String
deriving DecidableEq

/-- One required-field check of `submit_application`:
`field in data and data[field].strip()` — present, and nonempty after
stripping whitespace. -/
def presentAndFilled : Option String → Bool
  | none => false
  | some s => pyStrip s != ""

/-- The `all(... for field in required_fields)` check over the eight required
application fields. -/
def requiredOk (f : AppForm) : Bool :=
  presentAndFilled f.firstName && presentAndFilled f.lastName &&
  presentAndFilled f.email && presentAndFilled f.phone &&
  presentAndFilled f.workExp && presentAndFilled f.applyingFor &&
  presentAndFilled f.github && presentAndFilled f.linkedin

/-- Model of werkzeug's `secure_filename` (external library, not part of
`src`): keeps alphanumerics and `.`, `_`, `-`, dropping everything else.
No claim depends on the exact sanitization. -/
def secure_filename (s : String) : String :=
  ⟨s.data.filter fun c => c.isAlphanum || c = '.' || c = '_' || c = '-'⟩

/-- The resumes directory path (`os.path.join(BASE_DIR, 'resumes')`, with
the absolute `BASE_DIR` prefix elided). -/
def RESUMES_FOLDER : String := "resumes"

/-- Model of `os.path.join` for the one-separator case used here. -/
def pathJoin (a b : String) : String := a ++ "/" ++ b

/-- Rendering of a uuid token as the string it contributes to a filename. -/
def uuidStr (n : Nat) : String := "uuid-" ++ toString n

/-- Mutable world state threaded through `submit_application`: the uuid
fresh-name supply, the set of files written to the resumes directory, and
the store file. -/
structure AppState where
  uuidCounter : Nat
  resumes : List String
  store : StoreFile
deriving DecidableEq

/-- Model of the `POST /submit_application` handler `submit_application`.

Checks in source order: the eight required fields (stripped), the email
regex, the phone regex, the resume file; then writes the resume file,
builds the record (drawing two uuids: one for the filename, one for `id`),
appends it to the store (500 on failure), and finally attempts the career
confirmation email, whose outcome `sendOk` does not affect the response.
`date` is `datetime.now().isoformat()`; `writeOk` is the store-write
oracle.  Returns the response and the resulting world state. -/
def submit_application (form : AppForm) (st : AppState) (writeOk sendOk : Bool)
    (date : String) : HttpResponse × AppState :=
  if !(requiredOk form) then
    (⟨400, false, "All required fields must be filled."⟩, st)
  else if !(emailRegexMatch (form.email.getD "")) then
    (⟨400, false, "Invalid email format."⟩, st)
  else if !(phoneRegexMatch (form.phone.getD "")) then
    (⟨400, false, "Invalid phone number format."⟩, st)
  else
    match form.resume with
    | none => (⟨400, false, "Resume file is required."⟩, st)
    | some rawName =>
      if rawName = "" then
        (⟨400, false, "Resume file is required."⟩, st)
      else
        let filename := secure_filename rawName
        let unique_filename := uuidStr st.uuidCounter ++ "-" ++ filename
        let resume_path := pathJoin RESUMES_FOLDER unique_filename
        let application_data : Record :=
          { id := st.uuidCounter + 1
            date := date
            firstName := form.firstName.getD ""
            lastName := form.lastName.getD ""
            email := form.email.getD ""
            phone := form.phone.getD ""
            workExp := form.workExp.getD ""
            applyingFor := form.applyingFor.getD ""
            github := form.github.getD ""
            linkedin := form.linkedin.getD ""
            intro := form.intro
            resume_path := resume_path }
        let st1 : AppState :=
          { uuidCounter := st.uuidCounter + 2
            resumes := st.resumes ++ [resume_path]
            store := st.store }
        let saved := save_application_data st1.store writeOk application_data
        if !saved.1 then
          (⟨500, false, "Failed to save application. Please try again later."⟩,
            { st1 with store := saved.2 })
        else
          (⟨200, true,
            "Thank you for your application! We will review it and get back to you soon."⟩,
            { st1 with store := saved.2 })

/-- A form that passes every check of `submit_application` and reaches the
store append: required fields filled, email and phone regexes matched, and
a resume file with a nonempty filename attached. -/
def validForm (f : AppForm) : Bool :=
  requiredOk f && emailRegexMatch (f.email.getD "") && phoneRegexMatch (f.phone.getD "") &&
    (match f.resume with
     | none => false
     | some n => n != "")

/-- Runs a sequence of application submissions (each a form plus its request
timestamp) with the store write succeeding each time, threading the state. -/
def runSubmissions (inputs : List (AppForm × String)) (st : AppState) : AppState :=
  match inputs with
  | [] => st
  | (f, d) :: rest => runSubmissions rest (submit_application f st true true d).2

/-- The per-field correspondence between a submitted form (with its request
timestamp) and the record that submission persisted. -/
def recordMatches (fd : AppForm × String) (r : Record) : Prop :=
  r.firstName = fd.1.firstName.getD "" ∧ r.lastName = fd.1.lastName.getD "" ∧
  r.email = fd.1.email.getD "" ∧ r.phone = fd.1.phone.getD "" ∧
  r.workExp = fd.1.workExp.getD "" ∧ r.applyingFor = fd.1.applyingFor.getD "" ∧
  r.github = fd.1.github.getD "" ∧ r.linkedin = fd.1.linkedin.getD "" ∧
  r.intro = fd.1.intro ∧ r.date = fd.2

/-- The store invariant of the data model: every persisted record carries a
nonempty `resume_path` that is the path of a file present in the resumes
directory. -/
def StoreInv (st : AppState) : Prop :=
  ∀ r ∈ recordsOf st.store, r.resume_path ≠ "" ∧ r.resume_path ∈ st.resumes

/-- The resume path `submit_application` writes when the uuid supply is at
`k`: `os.path.join(RESUMES_FOLDER, f"{uuid.uuid4()}-{filename}")`. -/
def newResumePath (f : AppForm) (k : Nat) : String :=
  pathJoin RESUMES_FOLDER (uuidStr k ++ "-" ++ secure_filename (f.resume.getD ""))

/-- The record `submit_application` builds when the uuid supply is at `k`
and the request timestamp is `d`. -/
def newRecord (f : AppForm) (k : Nat) (d : String) : Record :=
  { id := k + 1
    date := d
    firstName := f.firstName.getD ""
    lastName := f.lastName.getD ""
    email := f.email.getD ""
    phone := f.phone.getD ""
    workExp := f.workExp.getD ""
    applyingFor := f.applyingFor.getD ""
    github := f.github.getD ""
    linkedin := f.linkedin.getD ""
    intro := f.intro
    resume_path := newResumePath f k }

/-- A concrete application form that passes every check, used to evaluate
the theorems on concrete inputs. -/
def sampleForm : AppForm :=
  { firstName := some "Ann"
    lastName := some "Lee"
    email := some "ann@x.com"
    phone := some "9123456789"
    workExp := some "2"
    applyingFor := some "Developer"
    github := some "https://github.com/ann"
    linkedin := some "https://linkedin.com/in/ann"
    intro := none
    resume := some "cv.pdf" }

/-- A concrete initial world state: fresh uuid supply, empty resumes
directory, no store file yet. -/
def sampleState : AppState := ⟨0, [], .missing⟩

/-- The store append fails exactly when the write fails or the store file is
corrupt (unparseable); which record is being appended is irrelevant. -/
theorem save_application_data_fails_iff (s : StoreFile) (w : Bool) (r : Record) :
    (save_application_data s w r).1 = false ↔ (w = false ∨ s = .corrupt) := by
  cases s <;> cases w <;> simp [save_application_data, loadApplications]

/-- A successful append on a non-corrupt store writes back the previous
records with the new one at the end. -/
theorem save_application_data_ok (s : StoreFile) (r : Record) (h : s ≠ .corrupt) :
    save_application_data s true r = (true, .contents (recordsOf s ++ [r])) := by
  cases s <;> simp_all [save_application_data, loadApplications, recordsOf]

/-- A non-corrupt store file deserializes to its record list. -/
theorem loadApplications_of_ne_corrupt (s : StoreFile) (h : s ≠ .corrupt) :
    loadApplications s = some (recordsOf s) := by
  cases s <;> simp_all [loadApplications, recordsOf]

/-- C9: `send_career_reply_email` is a total Boolean-returning function (the
`except` catches every raised exception): it returns `false` exactly when
the template read fails or the send fails, and `true` on a successful send
even when the logo file is missing or zero-byte — in which case the email
that goes out carries no logo attachment. -/
theorem send_career_reply_email_contract
    (recipient first_name last_name role_name : String)
    (template : Option String) (logo : LogoFile) (sendOk : Bool) :
    (send_career_reply_email recipient first_name last_name role_name
        template logo sendOk).1 = (template.isSome && sendOk) ∧
    (send_career_reply_email recipient first_name last_name role_name
            template logo sendOk).2.map CareerEmail.hasLogoAttachment
        = (if template.isSome && sendOk then some (logoPresent logo) else none) := by
  cases template <;> cases sendOk <;> simp [send_career_reply_email]

/-- C1 counterexample: a contact payload whose `name` is the whitespace-only
string `" "` is NOT rejected — the handler returns 200 with `success:true`,
because `not all([...])` tests Python truthiness without trimming, while the
claim requires 400 for fields that are empty after trimming. -/
theorem submit_contact_whitespace_name_accepted :
    submit_contact ⟨some " ", some "ann@x.com", some "Pricing", some "Hi"⟩ none true true =
      ⟨200, true,
        "Your inquiry has been submitted successfully!" ++
          " You'll receive a confirmation email shortly."⟩ := by
  rfl

/-- C1 (amended): the contact handler returns 400 with `success:false`
exactly when one of `name`, `email`, `subject`, `message` is absent or is
the empty string; no trimming is applied, so whitespace-only values pass
validation, and otherwise the handler proceeds. -/
theorem submit_contact_validation (p : ContactPayload) (receiverEmail : Option String)
    (companySendOk clientSendOk : Bool) :
    ((submit_contact p receiverEmail companySendOk clientSendOk).status = 400 ∧
        (submit_contact p receiverEmail companySendOk clientSendOk).success = false)
      ↔ (truthy p.name && truthy p.email && truthy p.subject && truthy p.message) = false := by
  by_cases h : (truthy p.name && truthy p.email && truthy p.subject && truthy p.message) = true
  · simp [submit_contact, h]
  · simp only [Bool.not_eq_true] at h
    simp [submit_contact, h]

/-- C2: a contact payload with all four fields present and non-empty gets
200 with `success:true` for every combination of company-notification
outcome and client-confirmation outcome, and for any shape of the email
field — the contact handler performs no email-format validation. -/
theorem submit_contact_valid_200 (name email subject message : String)
    (receiverEmail : Option String) (companySendOk clientSendOk : Bool)
    (hn : name ≠ "") (he : email ≠ "") (hs : subject ≠ "") (hm : message ≠ "") :
    (submit_contact ⟨some name, some email, some subject, some message⟩
        receiverEmail companySendOk clientSendOk).status = 200 ∧
    (submit_contact ⟨some name, some email, some subject, some message⟩
        receiverEmail companySendOk clientSendOk).success = true := by
  simp [submit_contact, truthy, hn, he, hs, hm]

/-- Witness for C2 at a concrete input: a syntactically invalid email and
both sends failing still yield 200 with `success:true`. -/
theorem submit_contact_valid_200_witness :
    (submit_contact ⟨some "Ann", some "not-an-email", some "Pricing", some "Hi"⟩
        (some "op@x.com") false false).status = 200 ∧
    (submit_contact ⟨some "Ann", some "not-an-email", some "Pricing", some "Hi"⟩
        (some "op@x.com") false false).success = true :=
  submit_contact_valid_200 "Ann" "not-an-email" "Pricing" "Hi"
    (some "op@x.com") false false
    (by decide) (by decide) (by decide) (by decide)

/-- C6: an application submission in which any of the eight required fields
is absent or empty after stripping whitespace is rejected with 400 and
`success:false`, and the world state is untouched — no resume file is
written and no record is stored. -/
theorem submit_application_required_reject (f : AppForm) (st : AppState)
    (writeOk sendOk : Bool) (date : String)
    (h : requiredOk f = false) :
    submit_application f st writeOk sendOk date =
      (⟨400, false, "All required fields must be filled."⟩, st) := by
  simp [submit_application, h]

/-- Witness for C6 at a concrete input: a whitespace-only `github` field is
rejected and the state is unchanged. -/
theorem submit_application_required_reject_witness :
    submit_application { sampleForm with github := some "   " } sampleState true true
        "2026-01-01" =
      (⟨400, false, "All required fields must be filled."⟩, sampleState) :=
  submit_application_required_reject _ _ _ _ _ (by decide)

/-- A failed store append leaves the store file unchanged and returns
`False`. -/
theorem save_application_data_fail_state (s : StoreFile) (w : Bool) (r : Record)
    (hfail : (save_application_data s w r).1 = false) :
    save_application_data s w r = (false, s) := by
  cases s <;> cases w <;> simp_all [save_application_data, loadApplications]

/-- Once the three format checks pass, the response message is one of the
three later outcomes: missing resume, failed store append, or success. -/
theorem submit_application_after_checks (f : AppForm) (st : AppState)
    (writeOk sendOk : Bool) (date : String)
    (hreq : requiredOk f = true)
    (hem : emailRegexMatch (f.email.getD "") = true)
    (hph : phoneRegexMatch (f.phone.getD "") = true) :
    (submit_application f st writeOk sendOk date).1.message = "Resume file is required." ∨
    (submit_application f st writeOk sendOk date).1.message
        = "Failed to save application. Please try again later." ∨
    (submit_application f st writeOk sendOk date).1.message
        = "Thank you for your application! We will review it and get back to you soon." := by
  cases hr : f.resume with
  | none =>
    refine Or.inl ?_
    simp [submit_application, hreq, hem, hph, hr]
  | some n =>
    by_cases hn : n = ""
    · refine Or.inl ?_
      simp [submit_application, hreq, hem, hph, hr, hn]
    · by_cases hfail : writeOk = false ∨ st.store = StoreFile.corrupt
      · have hsag : ∀ r : Record, save_application_data st.store writeOk r = (false, st.store) :=
          fun r => save_application_data_fail_state _ _ _
            ((save_application_data_fails_iff _ _ r).2 hfail)
        refine Or.inr (Or.inl ?_)
        simp [submit_application, hreq, hem, hph, hr, hn, hsag]
      · push_neg at hfail
        obtain ⟨hw, hc⟩ := hfail
        have hw2 : writeOk = true := by
          cases writeOk with
          | false => exact absurd rfl hw
          | true => rfl
        subst hw2
        have hsag : ∀ r : Record, save_application_data st.store true r
            = (true, .contents (recordsOf st.store ++ [r])) :=
          fun r => save_application_data_ok _ _ hc
        refine Or.inr (Or.inr ?_)
        simp [submit_application, hreq, hem, hph, hr, hn, hsag]

/-- C7 counterexample: the email `"a@b.cc\n"` does not have the shape
`local@domain.tld` ending in two-or-more non-space characters — its last
character is a newline — yet the handler accepts it (200), because Python's
`$` also matches just before a trailing newline. -/
theorem email_trailing_newline_accepted :
    emailCore ("a@b.cc\n").data = false ∧
    (submit_application { sampleForm with email := some "a@b.cc\n" } sampleState
        true true "2026-01-01").1 =
      ⟨200, true,
        "Thank you for your application! We will review it and get back to you soon."⟩ := by
  constructor
  · rfl
  · rfl

/-- C7 (amended): when the eight required fields pass, the handler returns
the 400 invalid-email response with the state untouched exactly when the
email fails `re.match(r'^[^\s@]+@[^\s@]+\.[^\s@]\x7b2,\x7d$', ...)` — which
accepts the `local@domain.tld` shape and also that shape followed by a
single trailing newline. -/
theorem submit_application_email_check (f : AppForm) (st : AppState)
    (writeOk sendOk : Bool) (date : String)
    (hreq : requiredOk f = true) :
    submit_application f st writeOk sendOk date =
        (⟨400, false, "Invalid email format."⟩, st)
      ↔ emailRegexMatch (f.email.getD "") = false := by
  constructor
  · intro h
    by_contra hne
    rw [Bool.not_eq_false] at hne
    have hmsg : (submit_application f st writeOk sendOk date).1.message
        = "Invalid email format." := by rw [h]
    by_cases hph : phoneRegexMatch (f.phone.getD "") = true
    · rcases submit_application_after_checks f st writeOk sendOk date hreq hne hph with
        h1 | h1 | h1 <;> rw [h1] at hmsg <;> exact absurd hmsg (by decide)
    · rw [Bool.not_eq_true] at hph
      have h2 : (submit_application f st writeOk sendOk date).1.message
          = "Invalid phone number format." := by
        simp [submit_application, hreq, hne, hph]
      rw [h2] at hmsg
      exact absurd hmsg (by decide)
  · intro h
    simp [submit_application, hreq, h]

/-- Witness for the amended C7 at a concrete input: `"not-an-email"` is
rejected with 400. -/
theorem submit_application_email_check_witness :
    submit_application { sampleForm with email := some "not-an-email" } sampleState
        true true "2026-01-01" =
      (⟨400, false, "Invalid email format."⟩, sampleState) :=
  (submit_application_email_check _ _ _ _ _ (by decide)).2 (by decide)

/-- C5 counterexample: the phone `"9123456789\n"` is not a string of exactly
ten digits — it has eleven characters — yet the handler accepts it (200),
because Python's `$` also matches just before a trailing newline. -/
theorem phone_trailing_newline_accepted :
    phoneCore ("9123456789\n").data = false ∧
    (submit_application { sampleForm with phone := some "9123456789\n" } sampleState
        true true "2026-01-01").1 =
      ⟨200, true,
        "Thank you for your application! We will review it and get back to you soon."⟩ := by
  constructor
  · rfl
  · rfl

/-- C5 (amended): when the eight required fields pass and the email passes,
the handler returns the 400 invalid-phone response with the state untouched
exactly when the phone fails `re.match(r'^[6-9]\d\x7b9\x7d$', ...)` — which
accepts a ten-digit string starting with 6–9 and also such a string followed
by a single trailing newline.  In particular `"5123456789"` is rejected and
`"9123456789"` is accepted past the phone check. -/
theorem submit_application_phone_check (f : AppForm) (st : AppState)
    (writeOk sendOk : Bool) (date : String)
    (hreq : requiredOk f = true)
    (hem : emailRegexMatch (f.email.getD "") = true) :
    submit_application f st writeOk sendOk date =
        (⟨400, false, "Invalid phone number format."⟩, st)
      ↔ phoneRegexMatch (f.phone.getD "") = false := by
  constructor
  · intro h
    by_contra hne
    rw [Bool.not_eq_false] at hne
    have hmsg : (submit_application f st writeOk sendOk date).1.message
        = "Invalid phone number format." := by rw [h]
    rcases submit_application_after_checks f st writeOk sendOk date hreq hem hne with
      h1 | h1 | h1 <;> rw [h1] at hmsg <;> exact absurd hmsg (by decide)
  · intro h
    simp [submit_application, hreq, hem, h]

/-- Witness for the amended C5 at a concrete input: `"5123456789"` is
rejected with 400. -/
theorem submit_application_phone_check_witness :
    submit_application { sampleForm with phone := some "5123456789" } sampleState
        true true "2026-01-01" =
      (⟨400, false, "Invalid phone number format."⟩, sampleState) :=
  (submit_application_phone_check _ _ _ _ _ (by decide) (by decide)).2 (by decide)

/-- C8: when a submission passes every check but the store append fails,
the handler returns 500 with `success:false` and the message telling the
user to retry.  By `save_application_data_fails_iff`, the append fails
exactly when the write fails or the store file is corrupt, independently of
the record appended. -/
theorem submit_application_store_failure_500 (f : AppForm) (st : AppState)
    (writeOk sendOk : Bool) (date : String)
    (hv : validForm f = true)
    (hfail : (save_application_data st.store writeOk
        (newRecord f st.uuidCounter date)).1 = false) :
    (submit_application f st writeOk sendOk date).1 =
      ⟨500, false, "Failed to save application. Please try again later."⟩ := by
  have hfail2 : writeOk = false ∨ st.store = .corrupt :=
    (save_application_data_fails_iff _ _ _).1 hfail
  have hsag : ∀ r : Record, save_application_data st.store writeOk r = (false, st.store) :=
    fun r => save_application_data_fail_state _ _ _
      ((save_application_data_fails_iff st.store writeOk r).2 hfail2)
  simp only [validForm, Bool.and_eq_true] at hv
  obtain ⟨⟨⟨hreq, hem⟩, hph⟩, hres⟩ := hv
  cases hr : f.resume with
  | none => rw [hr] at hres; simp at hres
  | some n =>
    rw [hr] at hres
    have hn : ¬(n = "") := by simpa using hres
    simp [submit_application, hreq, hem, hph, hr, hn, hsag]

/-- Witness for C8 at a concrete input: a failing write on a valid
submission yields the 500 retry response. -/
theorem submit_application_store_failure_500_witness :
    (submit_application sampleForm sampleState false true "2026-01-01").1 =
      ⟨500, false, "Failed to save application. Please try again later."⟩ :=
  submit_application_store_failure_500 _ _ _ _ _ (by decide) (by decide)

/-- C10: when the store append fails after the resume file has been written,
the handler returns 500 but the resume file written during the request stays
in the resumes directory — no cleanup happens — while the store is left
unchanged, so the new file has no corresponding record. -/
theorem submit_application_store_failure_orphan (f : AppForm) (st : AppState)
    (writeOk sendOk : Bool) (date : String)
    (hv : validForm f = true)
    (hfail : (save_application_data st.store writeOk
        (newRecord f st.uuidCounter date)).1 = false) :
    (submit_application f st writeOk sendOk date).1.status = 500 ∧
    (submit_application f st writeOk sendOk date).1.success = false ∧
    (submit_application f st writeOk sendOk date).2.resumes
        = st.resumes ++ [newResumePath f st.uuidCounter] ∧
    (submit_application f st writeOk sendOk date).2.store = st.store := by
  have hfail2 : writeOk = false ∨ st.store = .corrupt :=
    (save_application_data_fails_iff _ _ _).1 hfail
  have hsag : ∀ r : Record, save_application_data st.store writeOk r = (false, st.store) :=
    fun r => save_application_data_fail_state _ _ _
      ((save_application_data_fails_iff st.store writeOk r).2 hfail2)
  simp only [validForm, Bool.and_eq_true] at hv
  obtain ⟨⟨⟨hreq, hem⟩, hph⟩, hres⟩ := hv
  cases hr : f.resume with
  | none => rw [hr] at hres; simp at hres
  | some n =>
    rw [hr] at hres
    have hn : ¬(n = "") := by simpa using hres
    simp [submit_application, hreq, hem, hph, hr, hn, hsag, newResumePath]

/-- A path produced by `os.path.join(RESUMES_FOLDER, ...)` is never the
empty string. -/
theorem pathJoin_ne_empty (b : String) : pathJoin RESUMES_FOLDER b ≠ "" := by
  intro h
  have hlen := congrArg String.length h
  simp only [pathJoin, String.length_append] at hlen
  have h8 : RESUMES_FOLDER.length + "/".length = 8 := rfl
  have h0 : String.length "" = 0 := rfl
  omega

/-- The resume path built for an upload is never the empty string. -/
theorem newResumePath_ne_empty (f : AppForm) (k : Nat) : newResumePath f k ≠ "" :=
  pathJoin_ne_empty _

/-- A submission rejected by one of the four checks leaves the world state
untouched. -/
theorem submit_application_invalid_state (f : AppForm) (st : AppState)
    (writeOk sendOk : Bool) (date : String)
    (hv : validForm f = false) :
    (submit_application f st writeOk sendOk date).2 = st := by
  by_cases hreq : requiredOk f = true
  · by_cases hem : emailRegexMatch (f.email.getD "") = true
    · by_cases hph : phoneRegexMatch (f.phone.getD "") = true
      · cases hr : f.resume with
        | none => simp [submit_application, hreq, hem, hph, hr]
        | some n =>
          have hn : n = "" := by
            simp [validForm, hreq, hem, hph, hr] at hv
            simpa using hv
          simp [submit_application, hreq, hem, hph, hr, hn]
      · rw [Bool.not_eq_true] at hph
        simp [submit_application, hreq, hem, hph]
    · rw [Bool.not_eq_true] at hem
      simp [submit_application, hreq, hem]
  · rw [Bool.not_eq_true] at hreq
    simp [submit_application, hreq]

/-- A valid submission whose append fails returns the 500 retry response
with the resume file written, the uuid supply advanced by the two draws,
and the store unchanged. -/
theorem submit_application_fail_state (f : AppForm) (st : AppState)
    (writeOk sendOk : Bool) (date : String)
    (hv : validForm f = true)
    (hfail : writeOk = false ∨ st.store = StoreFile.corrupt) :
    submit_application f st writeOk sendOk date =
      (⟨500, false, "Failed to save application. Please try again later."⟩,
        ⟨st.uuidCounter + 2, st.resumes ++ [newResumePath f st.uuidCounter], st.store⟩) := by
  have hsag : ∀ r : Record, save_application_data st.store writeOk r = (false, st.store) :=
    fun r => save_application_data_fail_state _ _ _
      ((save_application_data_fails_iff _ _ r).2 hfail)
  simp only [validForm, Bool.and_eq_true] at hv
  obtain ⟨⟨⟨hreq, hem⟩, hph⟩, hres⟩ := hv
  cases hr : f.resume with
  | none => rw [hr] at hres; simp at hres
  | some n =>
    rw [hr] at hres
    have hn : ¬(n = "") := by simpa using hres
    simp [submit_application, hreq, hem, hph, hr, hn, hsag, newResumePath]

/-- A valid submission whose append succeeds returns 200, writes the resume
file, advances the uuid supply by the two draws, and appends exactly the
new record to the deserialized store contents. -/
theorem submit_application_ok_state (f : AppForm) (st : AppState)
    (sendOk : Bool) (date : String)
    (hv : validForm f = true)
    (hc : st.store ≠ StoreFile.corrupt) :
    submit_application f st true sendOk date =
      (⟨200, true,
          "Thank you for your application! We will review it and get back to you soon."⟩,
        ⟨st.uuidCounter + 2, st.resumes ++ [newResumePath f st.uuidCounter],
          StoreFile.contents (recordsOf st.store ++ [newRecord f st.uuidCounter date])⟩) := by
  have hsag : ∀ r : Record, save_application_data st.store true r
      = (true, .contents (recordsOf st.store ++ [r])) :=
    fun r => save_application_data_ok _ _ hc
  simp only [validForm, Bool.and_eq_true] at hv
  obtain ⟨⟨⟨hreq, hem⟩, hph⟩, hres⟩ := hv
  cases hr : f.resume with
  | none => rw [hr] at hres; simp at hres
  | some n =>
    rw [hr] at hres
    have hn : ¬(n = "") := by simpa using hres
    simp [submit_application, hreq, hem, hph, hr, hn, hsag, newResumePath, newRecord]

/-- C3: `submit_application` preserves the data-model invariant that every
persisted record has a nonempty `resume_path` that is the path of a file
present in the resumes directory: the resume file is written before the
record is appended, and nothing ever deletes a resume file or rewrites a
stored `resume_path`. -/
theorem submit_application_preserves_store_inv (f : AppForm) (st : AppState)
    (writeOk sendOk : Bool) (date : String)
    (hInv : StoreInv st) :
    StoreInv (submit_application f st writeOk sendOk date).2 := by
  by_cases hv : validForm f = true
  · by_cases hfail : writeOk = false ∨ st.store = StoreFile.corrupt
    · rw [submit_application_fail_state f st writeOk sendOk date hv hfail]
      intro r hrmem
      obtain ⟨h1, h2⟩ := hInv r hrmem
      exact ⟨h1, List.mem_append_left _ h2⟩
    · push_neg at hfail
      obtain ⟨hw, hc⟩ := hfail
      have hw2 : writeOk = true := by
        cases writeOk with
        | false => exact absurd rfl hw
        | true => rfl
      subst hw2
      rw [submit_application_ok_state f st sendOk date hv hc]
      intro r hrmem
      simp only [StoreInv, recordsOf, loadApplications, Option.getD_some] at hrmem
      rcases List.mem_append.1 hrmem with hold | hnew
      · obtain ⟨h1, h2⟩ := hInv r hold
        exact ⟨h1, List.mem_append_left _ h2⟩
      · rw [List.mem_singleton] at hnew
        subst hnew
        exact ⟨newResumePath_ne_empty f st.uuidCounter,
          List.mem_append_right _ (List.mem_singleton_self _)⟩
  · rw [Bool.not_eq_true] at hv
    rw [submit_application_invalid_state f st writeOk sendOk date hv]
    exact hInv

/-- Witness for C3 at a concrete input: the invariant holds of the empty
initial state and is preserved across a successful submission. -/
theorem submit_application_preserves_store_inv_witness :
    StoreInv sampleState ∧
    StoreInv (submit_application sampleForm sampleState true true "2026-01-01").2 :=
  ⟨by simp [StoreInv, sampleState, recordsOf, loadApplications],
    submit_application_preserves_store_inv sampleForm sampleState true true "2026-01-01"
      (by simp [StoreInv, sampleState, recordsOf, loadApplications])⟩

/-- Sequential valid submissions with succeeding writes extend the
deserialized store contents by one record each, in order, with ids above
the starting uuid supply and pairwise distinct. -/
theorem runSubmissions_spec (inputs : List (AppForm × String)) :
    ∀ st : AppState, st.store ≠ StoreFile.corrupt →
    (∀ fd ∈ inputs, validForm fd.1 = true) →
    ∃ rsNew : List Record,
      (runSubmissions inputs st).store ≠ StoreFile.corrupt ∧
      recordsOf (runSubmissions inputs st).store = recordsOf st.store ++ rsNew ∧
      (∀ r ∈ rsNew, st.uuidCounter < r.id) ∧
      (rsNew.map Record.id).Nodup ∧
      List.Forall₂ recordMatches inputs rsNew := by
  induction inputs with
  | nil =>
    intro st h1 _
    exact ⟨[], h1, by simp [runSubmissions], by simp, by simp, List.Forall₂.nil⟩
  | cons fd rest ih =>
    intro st h1 h2
    obtain ⟨f, d⟩ := fd
    have hvf : validForm f = true := h2 (f, d) (List.mem_cons_self _ _)
    have hrest : ∀ x ∈ rest, validForm x.1 = true :=
      fun x hx => h2 x (List.mem_cons_of_mem _ hx)
    have hrun : runSubmissions ((f, d) :: rest) st
        = runSubmissions rest
            ⟨st.uuidCounter + 2, st.resumes ++ [newResumePath f st.uuidCounter],
              StoreFile.contents (recordsOf st.store ++ [newRecord f st.uuidCounter d])⟩ := by
      show runSubmissions rest (submit_application f st true true d).2 = _
      rw [show (submit_application f st true true d).2
          = (⟨st.uuidCounter + 2, st.resumes ++ [newResumePath f st.uuidCounter],
              StoreFile.contents (recordsOf st.store ++ [newRecord f st.uuidCounter d])⟩ :
                AppState)
        from by rw [submit_application_ok_state f st true d hvf h1]]
    obtain ⟨rsNew, hnc, hrec, hfresh, hnodup, hmatch⟩ :=
      ih ⟨st.uuidCounter + 2, st.resumes ++ [newResumePath f st.uuidCounter],
            StoreFile.contents (recordsOf st.store ++ [newRecord f st.uuidCounter d])⟩
        (by simp) hrest
    refine ⟨newRecord f st.uuidCounter d :: rsNew, ?_, ?_, ?_, ?_, ?_⟩
    · rw [hrun]
      exact hnc
    · rw [hrun, hrec]
      simp [recordsOf, loadApplications]
    · intro r hr
      rcases List.mem_cons.1 hr with h | h
      · subst h
        simp [newRecord]
      · have := hfresh r h
        simp only at this
        omega
    · simp only [List.map_cons, List.nodup_cons]
      refine ⟨?_, hnodup⟩
      intro hmem
      rw [List.mem_map] at hmem
      obtain ⟨r, hrmem, hrid⟩ := hmem
      have hgt := hfresh r hrmem
      simp only at hgt
      have hnewid : (newRecord f st.uuidCounter d).id = st.uuidCounter + 1 := rfl
      rw [hnewid] at hrid
      omega
    · exact List.Forall₂.cons (by simp [recordMatches, newRecord]) hmatch

/-- C4: starting from a missing or zero-byte store file, after `N`
successful sequential application submissions the store file deserializes
to an array of exactly the `N` submitted records in submission order, each
with a unique `id`. -/
theorem store_roundtrip (inputs : List (AppForm × String)) (st : AppState)
    (hst : st.store = StoreFile.missing ∨ st.store = StoreFile.empty)
    (hv : ∀ fd ∈ inputs, validForm fd.1 = true) :
    ∃ rs : List Record,
      loadApplications (runSubmissions inputs st).store = some rs ∧
      rs.length = inputs.length ∧
      (rs.map Record.id).Nodup ∧
      List.Forall₂ recordMatches inputs rs := by
  have h1 : st.store ≠ StoreFile.corrupt := by
    rcases hst with h | h <;> rw [h] <;> simp
  have h0 : recordsOf st.store = [] := by
    rcases hst with h | h <;> rw [h] <;> rfl
  obtain ⟨rsNew, hnc, hrec, _, hnodup, hmatch⟩ := runSubmissions_spec inputs st h1 hv
  refine ⟨rsNew, ?_, ?_, hnodup, hmatch⟩
  · rw [loadApplications_of_ne_corrupt _ hnc, hrec, h0, List.nil_append]
  · exact (List.Forall₂.length_eq hmatch).symm

/-- Witness for C4 at a concrete input: two submissions from an absent
store file yield a two-record array in order with distinct ids. -/
theorem store_roundtrip_witness :
    ∃ rs : List Record,
      loadApplications
          (runSubmissions [(sampleForm, "d1"), (sampleForm, "d2")] sampleState).store
        = some rs ∧
      rs.length = [(sampleForm, "d1"), (sampleForm, "d2")].length ∧
      (rs.map Record.id).Nodup ∧
      List.Forall₂ recordMatches [(sampleForm, "d1"), (sampleForm, "d2")] rs :=
  store_roundtrip _ _ (Or.inl rfl) (by decide)

/-- Witness for C10 at a concrete input: after a failed append the resume
file written for the request is still listed and the store is unchanged. -/
theorem submit_application_store_failure_orphan_witness :
    (submit_application sampleForm sampleState false true "2026-01-01").1.status = 500 ∧
    (submit_application sampleForm sampleState false true "2026-01-01").1.success = false ∧
    (submit_application sampleForm sampleState false true "2026-01-01").2.resumes
        = sampleState.resumes ++ [newResumePath sampleForm sampleState.uuidCounter] ∧
    (submit_application sampleForm sampleState false true "2026-01-01").2.store
        = sampleState.store :=
  submit_application_store_failure_orphan _ _ _ _ _ (by decide) (by decide)

end InGrowwth
